import Mathlib

/-!
Verification development for the App-Activo-Entrena backend (src/main.py,
src/config.py): a FastAPI service over PostgreSQL/PostGIS that ingests GPS
runs, detects closed loops, accumulates per-season territories, syncs runs
from Strava, serves leaderboards and closes seasons into podium snapshots.

Modelling conventions:
* Python floats are modelled as real numbers (`ℝ`) where trigonometry is
  involved (the haversine helper and the coordinates it consumes), and as
  rationals (`ℚ`) for the plain numeric columns stored in the database
  (distances, elevations, areas, scores), which the claims only add,
  divide by literal constants, compare and round.
* `CURRENT_DATE` is a `today : Int` parameter (days); `time.time()` is
  `now : Int` (seconds) carried by the Strava world.
* The PostGIS geometry engine (ST_GeomFromText/ST_Length/ST_Union/ST_Area/
  ST_MakePolygon∘ST_AddPoint∘ST_StartPoint) is an external collaborator: it
  is a parameter `GeoEngine Geom` of the store operations.  Building the WKT
  string and parsing it back is modelled as `toLine` applied to the ordered
  (lng, lat) pairs the code writes into the LINESTRING.
* Each endpoint runs inside one psycopg2 transaction: writes become visible
  only at `conn.commit()`, and closing the connection without committing
  rolls everything back.  The model therefore returns the committed store:
  error paths and early returns yield the store the call started from.
-/

noncomputable section

open Real

/-- math.radians: degrees to radians. -/
def radians (x : ℝ) : ℝ := x * Real.pi / 180

/-- math.atan2 restricted to the closed first quadrant (x, y >= 0), the only
region the shadowed helper below evaluates it on (both arguments are square
roots). -/
def atan2_nonneg (y x : ℝ) : ℝ :=
  if x = 0 then Real.pi / 2 else Real.arctan (y / x)

/-- src/main.py lines 263-275: the first haversine helper,
`calculate_distance(lat1, lon1, lat2, lon2)`.  At line 431 the module
re-defines `calculate_distance` with a different parameter order, so this
first definition is shadowed before any endpoint runs; it is kept here only
to document the call-site convention `(lat, lng, lat, lng)` it was written
for.  (`atan2 (sqrt a) (sqrt (1-a))` equals `arcsin (sqrt a)` on its
domain.) -/
def calculate_distance_shadowed (lat1 lon1 lat2 lon2 : ℝ) : ℝ :=
  let phi1 := radians lat1
  let phi2 := radians lat2
  let delta_phi := radians (lat2 - lat1)
  let delta_lambda := radians (lon2 - lon1)
  let a := Real.sin (delta_phi / 2) ^ 2 +
    Real.cos phi1 * Real.cos phi2 * Real.sin (delta_lambda / 2) ^ 2
  let c := 2 * atan2_nonneg (Real.sqrt a) (Real.sqrt (1 - a))
  6371000 * c

/-- src/main.py lines 431-444: the second haversine helper, and the one in
effect at run time (Python module-level redefinition replaces the first).
NOTE the parameter order is `(lon1, lat1, lon2, lat2)` — longitude first —
while `create_run` (line 286) passes `(lat, lng, lat, lng)`.  The `except`
branch returning 0.0 is unreachable in the real-number model (Real.sqrt
totalises the square root). -/
def calculate_distance (lon1 lat1 lon2 lat2 : ℝ) : ℝ :=
  let lon1 := radians lon1
  let lat1 := radians lat1
  let lon2 := radians lon2
  let lat2 := radians lat2
  let dlon := lon2 - lon1
  let dlat := lat2 - lat1
  let a := Real.sin (dlat / 2) ^ 2 +
    Real.cos lat1 * Real.cos lat2 * Real.sin (dlon / 2) ^ 2
  let c := 2 * Real.arcsin (Real.sqrt a)
  c * 6371000

/-- A latitude/longitude pair as submitted to POST /api/runs (class LatLng). -/
structure LatLng where
  lat : ℝ
  lng : ℝ

instance : Inhabited LatLng := ⟨⟨0, 0⟩⟩

/-- src/main.py lines 282-289: gap between the first and the last submitted
point, exactly as `create_run` computes it: `calculate_distance(
start_point.lat, start_point.lng, end_point.lat, end_point.lng)` — the
latitudes land in the `lon1`/`lon2` parameters of the helper in effect. -/
def distance_gap (points : List LatLng) : ℝ :=
  calculate_distance points.headI.lat points.headI.lng
    (points.getLastD default).lat (points.getLastD default).lng

/-- src/main.py line 291: `is_closed_loop = distance_gap < 50.0`. -/
def is_closed_loop (points : List LatLng) : Prop :=
  distance_gap points < 50

instance (points : List LatLng) : Decidable (is_closed_loop points) := by
  unfold is_closed_loop; infer_instance

/-- The spec's own geometry contract (spec.md section 4.1): `distance` is the
haversine great-circle distance on a spherical Earth of radius 6,371,000 m
between two (lat, lng) points, latitudes feeding the cosine terms.  Stated
from the spec's words to compare against what the code computes. -/
def haversine_spec (p q : LatLng) : ℝ :=
  let phi1 := radians p.lat
  let phi2 := radians q.lat
  let dphi := radians q.lat - radians p.lat
  let dlambda := radians q.lng - radians p.lng
  let a := Real.sin (dphi / 2) ^ 2 +
    Real.cos phi1 * Real.cos phi2 * Real.sin (dlambda / 2) ^ 2
  2 * Real.arcsin (Real.sqrt a) * 6371000

end

/-! ## Data model (tables referenced by the claims) -/

/-- A row of `seasons`: id, name, start_date, end_date, is_active. -/
structure Season where
  id : Nat
  name : String
  start_date : Int
  end_date : Int
  is_active : Bool
deriving DecidableEq

/-- A row of `users`, restricted to the columns the modelled endpoints read
or write (id, username and the Strava credential quadruple). -/
structure UserRow where
  id : Nat
  username : String
  strava_athlete_id : Option Nat := none
  strava_access_token : Option String := none
  strava_refresh_token : Option String := none
  strava_token_expires_at : Option Int := none
deriving DecidableEq

/-- A row of `user_runs`.  `strava_id` is NULL for direct submissions;
`elevation_gain` defaults to 0 for direct submissions (the INSERT in
`create_run` does not set the column). -/
structure RunRow (Geom : Type) where
  user_id : Nat
  season_id : Nat
  strava_id : Option String
  geom : Geom
  distance_meters : ℚ
  elevation_gain : ℚ
deriving DecidableEq

/-- A row of `territories`, unique per (user_id, season_id). -/
structure TerritoryRow (Geom : Type) where
  user_id : Nat
  season_id : Nat
  geom : Geom
  area_sq_meters : ℚ
deriving DecidableEq

/-- A row of `season_podiums`. -/
structure PodiumRow where
  season_id : Nat
  user_id : Nat
  category : String
  rank : Nat
  final_score : ℚ
deriving DecidableEq

/-- The database state the modelled endpoints touch. -/
structure Store (Geom : Type) where
  users : List UserRow
  seasons : List Season
  runs : List (RunRow Geom)
  territories : List (TerritoryRow Geom)
  podiums : List PodiumRow
deriving DecidableEq

/-- The PostGIS geometry operations the endpoints invoke, as an abstract
collaborator.  `toLine ps` stands for `ST_GeomFromText('LINESTRING(...)',
4326)` applied to the (lng, lat) pairs `ps` the code interpolates into the
WKT text; `length` for `ST_Length(geom::geography)`; `area` for
`ST_Area(geom::geography)`; `closePolygon` for
`ST_MakePolygon(ST_AddPoint(line, ST_StartPoint(line)))`; `union` for
`ST_Union`. -/
structure GeoEngine (Geom : Type) where
  toLine : List (ℝ × ℝ) → Geom
  length : Geom → ℚ
  area : Geom → ℚ
  closePolygon : Geom → Geom
  union : Geom → Geom → Geom

/-- `SELECT id FROM seasons WHERE CURRENT_DATE BETWEEN start_date AND
end_date LIMIT 1` (the season-resolution query every endpoint repeats). -/
def findSeason (seasons : List Season) (today : Int) : Option Season :=
  seasons.find? fun s => decide (s.start_date ≤ today ∧ today ≤ s.end_date)

/-! ## POST /api/runs (create_run, src/main.py lines 277-382) -/

/-- The request body of POST /api/runs (class RunCreate). -/
structure RunCreate where
  user_id : Nat
  points : List LatLng

/-- The (lng, lat) pairs `create_run` writes into its WKT LINESTRING
(line 317: `f"{p.lng} {p.lat}"`). -/
def run_wkt_points (points : List LatLng) : List (ℝ × ℝ) :=
  points.map fun p => (p.lng, p.lat)

/-- The `(user_id, season_id)` match used by the territory statements
(the table's unique key). -/
def territoryKey {Geom : Type} (uid sid : Nat) (t : TerritoryRow Geom) : Bool :=
  t.user_id == uid && t.season_id == sid

/-- src/main.py lines 338-352: `INSERT INTO territories ... ON CONFLICT
(user_id, season_id) DO UPDATE SET geom = ST_Union(territories.geom,
EXCLUDED.geom)` — insert the closed polygon, or union it into the existing
row's geometry. -/
def upsertTerritory {Geom : Type} (E : GeoEngine Geom) (uid sid : Nat)
    (poly : Geom) (ts : List (TerritoryRow Geom)) : List (TerritoryRow Geom) :=
  if ts.any (territoryKey uid sid) then
    ts.map fun t =>
      if territoryKey uid sid t then { t with geom := E.union t.geom poly } else t
  else
    ts ++ [{ user_id := uid, season_id := sid, geom := poly, area_sq_meters := 0 }]

/-- src/main.py lines 355-359: `UPDATE territories SET area_sq_meters =
ST_Area(geom::geography) WHERE user_id = %s AND season_id = %s`. -/
def refreshArea {Geom : Type} (E : GeoEngine Geom) (uid sid : Nat)
    (ts : List (TerritoryRow Geom)) : List (TerritoryRow Geom) :=
  ts.map fun t =>
    if territoryKey uid sid t then { t with area_sq_meters := E.area t.geom } else t

/-- src/main.py lines 338-359: the whole territory-merge step executed for
a closed loop — upsert the polygon built from the run's line, then refresh
the stored area from the final geometry. -/
def merge_territory {Geom : Type} (E : GeoEngine Geom) (uid sid : Nat)
    (line : Geom) (ts : List (TerritoryRow Geom)) : List (TerritoryRow Geom) :=
  refreshArea E uid sid (upsertTerritory E uid sid (E.closePolygon line) ts)

/-- src/main.py lines 277-382, POST /api/runs.  Returns (HTTP outcome, the
committed store): `Except.error status` models `raise HTTPException`, whose
handler rolls the transaction back, so the store is returned unchanged on
every error path; the success payload is (distance_meters, season_id).
Writes: the `user_runs` INSERT always, the territory merge only when
`is_closed_loop`; both commit together at line 363. -/
noncomputable def create_run {Geom : Type} (E : GeoEngine Geom)
    (run : RunCreate) (st : Store Geom) (today : Int) :
    Except Nat (ℚ × Nat) × Store Geom :=
  if run.points.length < 3 then (Except.error 400, st)
  else
    match findSeason st.seasons today with
    | none => (Except.error 400, st)
    | some season =>
        let geom := E.toLine (run_wkt_points run.points)
        let dist := E.length geom
        let row : RunRow Geom :=
          { user_id := run.user_id, season_id := season.id, strava_id := none,
            geom := geom, distance_meters := dist, elevation_gain := 0 }
        let terr :=
          if is_closed_loop run.points then
            merge_territory E run.user_id season.id geom st.territories
          else st.territories
        (Except.ok (dist, season.id),
         { st with runs := st.runs ++ [row], territories := terr })

/-! ## Strava token lifecycle (get_valid_token_raw, src/main.py lines 387-422) -/

/-- The refresh-token exchange response the Strava token endpoint would
return (status plus the JSON fields lines 413-415 read). -/
structure RefreshResponse where
  status : Nat
  access_token : String
  refresh_token : String
  expires_at : Int
deriving DecidableEq

/-- One activity object from GET /athlete/activities (the fields lines
480-486 read: `id` — stringified at line 480 —, `name`,
`total_elevation_gain`). -/
structure StravaActivity where
  id : String
  name : String
  total_elevation_gain : ℚ
deriving DecidableEq

/-- The outside world a sync call observes: the clock, the token endpoint's
refresh response, the activities listing (status and most-recent-first
body), and the latlng stream of the latest activity (`none` models a
response without a `latlng` key, e.g. an indoor activity). -/
structure StravaWorld where
  now : Int
  refresh : RefreshResponse
  act_status : Nat
  activities : List StravaActivity
  stream : Option (List (ℝ × ℝ))

/-- src/main.py lines 387-422, `get_valid_token_raw(user_id, cursor)`.
Returns (outcome, users table after the call, whether the token endpoint
was called).  `Except.error code` models the raise at lines 393/410 (the
code builds `Exception(status_code=..., detail=...)`, which itself blows up
with a TypeError, but either way the call fails and nothing was written).
Line 398's `if expires_at and ...` tests Python truthiness: NULL and 0 are
both falsy.  On a successful refresh the single UPDATE at lines 418-420
replaces the three credential fields together. -/
def get_valid_token_raw (uid : Nat) (w : StravaWorld) (users : List UserRow) :
    Except Nat (Option String) × List UserRow × Bool :=
  match users.find? fun u => u.id == uid with
  | none => (Except.error 404, users, false)
  | some u =>
      let fresh :=
        match u.strava_token_expires_at with
        | none => false
        | some e => decide (e ≠ 0 ∧ w.now < e - 60)
      if fresh then (Except.ok u.strava_access_token, users, false)
      else if w.refresh.status ≠ 200 then (Except.error 400, users, true)
      else
        (Except.ok (some w.refresh.access_token),
         users.map fun x =>
           if x.id == uid then
             { x with strava_access_token := some w.refresh.access_token,
                      strava_refresh_token := some w.refresh.refresh_token,
                      strava_token_expires_at := some w.refresh.expires_at }
           else x,
         true)

/-! ## POST /api/sync/last-activity-raw (src/main.py lines 447-664) -/

/-- The distinguishable responses of `sync_last_activity_raw`. -/
inductive SyncOutcome where
  /-- The generic `except Exception` handler: HTTP 500 after rollback. -/
  | serverError : SyncOutcome
  /-- `raise HTTPException(status, ...)` re-raised by the handler. -/
  | httpError : Nat → SyncOutcome
  /-- Line 477: `return {"message": "No hay actividades recientes"}`. -/
  | noActivities : SyncOutcome
  /-- Line 492: `return {"message": "Actividad ya sincronizada", "synced": True}`. -/
  | alreadySynced : SyncOutcome
  /-- Line 505: activity without a GPS stream. -/
  | noGps : SyncOutcome
  /-- Line 511: fewer than 2 coordinate samples. -/
  | invalidTrack : SyncOutcome
  /-- Lines 560-565: success with (distance_meters, elevation_gain). -/
  | synced : ℚ → ℚ → SyncOutcome
deriving DecidableEq

/-- src/main.py lines 447-664, POST /api/sync/last-activity-raw.  Returns
(outcome, committed store, whether the coordinate stream was fetched).
The only `conn.commit()` is at line 556, after the `user_runs` INSERT;
every other exit closes the connection uncommitted, so the model returns
the original store there (any token refresh performed by
`get_valid_token_raw` on such a path is rolled back with it).  The
closed-loop / territory code of this endpoint (lines 519-525 and 567-650)
is commented out in the source: no territory write ever happens here. -/
def sync_last_activity_raw {Geom : Type} (E : GeoEngine Geom) (uid : Nat)
    (w : StravaWorld) (st : Store Geom) (today : Int) :
    SyncOutcome × Store Geom × Bool :=
  match get_valid_token_raw uid w st.users with
  | (Except.error _, _, _) => (SyncOutcome.serverError, st, false)
  | (Except.ok token, users1, _) =>
      if token = none ∨ token = some "" then (SyncOutcome.httpError 400, st, false)
      else if w.act_status ≠ 200 then (SyncOutcome.httpError 400, st, false)
      else
        match w.activities with
        | [] => (SyncOutcome.noActivities, st, false)
        | act :: _ =>
            if st.runs.any fun r => r.strava_id == some act.id && r.user_id == uid then
              (SyncOutcome.alreadySynced, st, false)
            else
              match w.stream with
              | none => (SyncOutcome.noGps, st, true)
              | some [] => (SyncOutcome.noGps, st, true)
              | some coords =>
                  if coords.length < 2 then (SyncOutcome.invalidTrack, st, true)
                  else
                    match findSeason st.seasons today with
                    | none => (SyncOutcome.httpError 400, st, true)
                    | some season =>
                        let geom := E.toLine (coords.map fun p => (p.2, p.1))
                        let dist := E.length geom
                        let row : RunRow Geom :=
                          { user_id := uid, season_id := season.id,
                            strava_id := some act.id, geom := geom,
                            distance_meters := dist,
                            elevation_gain := act.total_elevation_gain }
                        (SyncOutcome.synced dist act.total_elevation_gain,
                         { st with users := users1, runs := st.runs ++ [row] },
                         true)

/-! ## Aggregation helpers shared by the leaderboard and the closure job -/

/-- `runs.filter (season_id = sid)`: the rows `WHERE season_id = %s` keeps. -/
def seasonRuns {Geom : Type} (runs : List (RunRow Geom)) (sid : Nat) :
    List (RunRow Geom) :=
  runs.filter fun r => r.season_id == sid

/-- The distinct user_ids of a run list, in first-appearance order: the
groups `GROUP BY user_id` forms (SQL fixes no group order; the model picks
first appearance). -/
def distinctUsers {Geom : Type} (runs : List (RunRow Geom)) : List Nat :=
  runs.foldl (fun acc r => if acc.contains r.user_id then acc else acc ++ [r.user_id]) []

/-- `SUM(col)` within one group. -/
def sumBy {Geom : Type} (runs : List (RunRow Geom)) (col : RunRow Geom → ℚ)
    (uid : Nat) : ℚ :=
  ((runs.filter fun r => r.user_id == uid).map col).sum

/-- One `GROUP BY user_id` output row. -/
structure ScoreRow where
  uid : Nat
  total : ℚ
deriving DecidableEq

/-- `SELECT user_id, SUM(col) ... GROUP BY user_id` over one season's runs. -/
def groupTotals {Geom : Type} (runs : List (RunRow Geom)) (col : RunRow Geom → ℚ) :
    List ScoreRow :=
  (distinctUsers runs).map fun uid => { uid := uid, total := sumBy runs col uid }

/-- Descending order on grouped totals (`ORDER BY total DESC`; ties keep a
stable, otherwise unspecified order — the model keeps list order). -/
def sortTotalsDesc (rows : List ScoreRow) : List ScoreRow :=
  List.insertionSort (fun a b => b.total ≤ a.total) rows

/-- `RANK() OVER (ORDER BY total DESC)`: 1 + the number of rows with a
strictly greater total; equal totals share a rank. -/
def rankOver (rows : List ScoreRow) (x : ScoreRow) : Nat :=
  1 + (rows.filter fun y => decide (x.total < y.total)).length

/-! ## GET /api/leaderboard (get_leaderboard, src/main.py lines 853-927) -/

/-- Python's `round(val, 2)` on the displayed value.  (CPython rounds
half-to-even on floats; `round` here rounds half up.  The claims about the
leaderboard depend only on monotonicity, which both share.) -/
def round2 (x : ℚ) : ℚ := (round (x * 100) : ℚ) / 100

/-- One element of the leaderboard `results` list (lines 917-922). -/
structure LeaderboardEntry where
  rank : Nat
  user_id : Nat
  username : String
  value : ℚ
deriving DecidableEq

/-- One row of the leaderboard query: user id, username and `SUM(col)`,
grouped `BY u.id, u.username` after joining `users`. -/
structure AggRow where
  uid : Nat
  username : String
  total : ℚ
deriving DecidableEq

/-- The leaderboard query's grouped rows: runs of the season, joined to
`users` (a run whose user_id has no users row is dropped by the inner
join), grouped by user. -/
def lb_rows {Geom : Type} (st : Store Geom) (sid : Nat)
    (col : RunRow Geom → ℚ) : List AggRow :=
  (distinctUsers (seasonRuns st.runs sid)).filterMap fun uid =>
    (st.users.find? fun u => u.id == uid).map fun u =>
      { uid := uid, username := u.username,
        total := sumBy (seasonRuns st.runs sid) col uid }

/-- `ORDER BY total DESC` over the joined rows. -/
def sortAggDesc (rows : List AggRow) : List AggRow :=
  List.insertionSort (fun a b => b.total ≤ a.total) rows

/-- Lines 907-922: `for index, row in enumerate(rows)` — build the entries,
rank := index + 1, value := round(total / divisor, 2). -/
def lb_entries (divisor : ℚ) : Nat → List AggRow → List LeaderboardEntry
  | _, [] => []
  | i, x :: xs =>
      { rank := i + 1, user_id := x.uid, username := x.username,
        value := round2 (x.total / divisor) } :: lb_entries divisor (i + 1) xs

/-- The query + result loop for one metric column: group, order descending,
`LIMIT 30`, then enumerate. -/
def rankList {Geom : Type} (st : Store Geom) (sid : Nat)
    (col : RunRow Geom → ℚ) (divisor : ℚ) : List LeaderboardEntry :=
  lb_entries divisor 0 ((sortAggDesc (lb_rows st sid col)).take 30)

/-- src/main.py lines 853-927, GET /api/leaderboard.  NOTE: the `season_id`
query parameter (default 1) is accepted but never used; the query always
runs over the season containing CURRENT_DATE, and with no such season the
endpoint returns an empty result (line 878).  Unknown `type` values also
yield an empty result (line 890). -/
def get_leaderboard {Geom : Type} (type_ : String) (_season_id : Nat)
    (st : Store Geom) (today : Int) : List LeaderboardEntry :=
  match findSeason st.seasons today with
  | none => []
  | some season =>
      if type_ == "distance" then
        rankList st season.id (fun r => r.distance_meters) 1000
      else if type_ == "hight" then
        rankList st season.id (fun r => r.elevation_gain) 1
      else []

/-! ## POST /api/admin/process-pending-closures (lines 929-992) -/

/-- The season_ids appearing in `season_podiums` (the `NOT IN (SELECT
DISTINCT season_id FROM season_podiums)` set). -/
def podiumSeasonIds (ps : List PodiumRow) : List Nat :=
  ps.map fun p => p.season_id

/-- Lines 937-942: seasons `WHERE end_date < CURRENT_DATE AND id NOT IN
(SELECT DISTINCT season_id FROM season_podiums)`. -/
def pendingClosures {Geom : Type} (st : Store Geom) (today : Int) : List Season :=
  st.seasons.filter fun s =>
    decide (s.end_date < today ∧ s.id ∉ podiumSeasonIds st.podiums)

/-- Lines 955-976: one podium INSERT ... SELECT for one season and one
category: group the season's runs by user, rank by summed column
descending (`RANK()`, ties share a rank), keep the top 3 rows, score :=
total / scoreDiv.  A season with no runs yields no rows. -/
def podiumTop3 {Geom : Type} (runs : List (RunRow Geom)) (sid : Nat)
    (cat : String) (col : RunRow Geom → ℚ) (scoreDiv : ℚ) : List PodiumRow :=
  let rows := groupTotals (seasonRuns runs sid) col
  ((sortTotalsDesc rows).take 3).map fun x =>
    { season_id := sid, user_id := x.uid, category := cat,
      rank := rankOver rows x, final_score := x.total / scoreDiv }

/-- src/main.py lines 929-992, POST /api/admin/process-pending-closures.
Returns (the closed season names, the committed store).  With no pending
season it returns early ("processed": []); otherwise, for each pending
season, both category podiums are inserted and the season is marked
inactive, all committed together at line 983. -/
def process_pending_season_closures {Geom : Type} (st : Store Geom)
    (today : Int) : List String × Store Geom :=
  let pending := pendingClosures st today
  if pending.isEmpty then ([], st)
  else
    let newPods := (pending.map fun s =>
      podiumTop3 st.runs s.id "distance" (fun r => r.distance_meters) 1000 ++
      podiumTop3 st.runs s.id "hight" (fun r => r.elevation_gain) 1).flatten
    let pids := pending.map fun s => s.id
    (pending.map fun s => s.name,
     { st with podiums := st.podiums ++ newPods,
               seasons := st.seasons.map fun s =>
                 if s.id ∈ pids then { s with is_active := false } else s })

/-- The stored `area_sq_meters` of the (uid, sid) territory row, 0 when the
row does not exist. -/
def territoryAreaOf {Geom : Type} (ts : List (TerritoryRow Geom))
    (uid sid : Nat) : ℚ :=
  match ts.find? (territoryKey uid sid) with
  | none => 0
  | some t => t.area_sq_meters

/-! ## Concrete fixtures used by witnesses and counterexamples -/

/-- A trivial geometry engine over a one-point geometry type. -/
def unitEngine : GeoEngine Unit :=
  { toLine := fun _ => (), length := fun _ => 0, area := fun _ => 0,
    closePolygon := fun _ => (), union := fun _ _ => () }

/-- A two-geometry engine whose union (`or`) is idempotent and associative. -/
def boolEngine : GeoEngine Bool :=
  { toLine := fun _ => false, length := fun _ => 0,
    area := fun g => if g then 1 else 0,
    closePolygon := fun g => g, union := fun a b => a || b }

/-- A season containing days 0..10. -/
def seasonA : Season :=
  { id := 1, name := "Temporada 1", start_date := 0, end_date := 10,
    is_active := true }

/-- A user holding a stored, far-future Strava credential. -/
def userAna : UserRow :=
  { id := 1, username := "ana",
    strava_access_token := some "tok", strava_refresh_token := some "ref",
    strava_token_expires_at := some 1000000 }

/-- A user without a credential. -/
def userBob : UserRow := { id := 2, username := "bob" }

/-- The empty store. -/
def stEmpty : Store Unit :=
  { users := [], seasons := [], runs := [], territories := [], podiums := [] }

/-- A 3-point direct submission. -/
def runThree : RunCreate := { user_id := 1, points := [⟨0, 0⟩, ⟨1, 1⟩, ⟨2, 2⟩] }

/-- A 2-point direct submission. -/
def runTwo : RunCreate := { user_id := 1, points := [⟨0, 0⟩, ⟨1, 1⟩] }

/-- A 3-point direct submission whose last point repeats the first. -/
def runClosed : RunCreate := { user_id := 1, points := [⟨0, 0⟩, ⟨1, 1⟩, ⟨0, 0⟩] }

/-- Store for sync scenarios: one credentialled user, one active season. -/
def stSync : Store Unit :=
  { users := [userAna], seasons := [seasonA],
    runs := [], territories := [], podiums := [] }

/-- A Strava world whose latest activity is a closed 3-point loop with 3 m
of climbing; the stored token is still fresh at `now = 0`. -/
def worldSync : StravaWorld :=
  { now := 0,
    refresh := { status := 200, access_token := "newtok",
                 refresh_token := "newref", expires_at := 500 },
    act_status := 200,
    activities := [{ id := "777", name := "Morning Run",
                     total_elevation_gain := 3 }],
    stream := some [(0, 0), (1, 1), (0, 0)] }

/-- Like `stSync` but the latest Strava activity 777 is already stored. -/
def stDup : Store Unit :=
  { users := [userAna], seasons := [seasonA],
    runs := [{ user_id := 1, season_id := 1, strava_id := some "777",
               geom := (), distance_meters := 100, elevation_gain := 3 }],
    territories := [], podiums := [] }

/-- A store whose only season ended before day 20 and has no runs at all. -/
def stNoRuns : Store Unit :=
  { users := [], seasons := [seasonA],
    runs := [], territories := [], podiums := [] }

/-- A store whose only season ended before day 20 and has one run. -/
def stOneRun : Store Unit :=
  { users := [], seasons := [seasonA],
    runs := [{ user_id := 1, season_id := 1, strava_id := none, geom := (),
               distance_meters := 100, elevation_gain := 0 }],
    territories := [], podiums := [] }

/-- Two users tied at 5000 m within the active season. -/
def stTied : Store Unit :=
  { users := [{ id := 1, username := "ana" }, { id := 2, username := "bob" }],
    seasons := [seasonA],
    runs := [{ user_id := 1, season_id := 1, strava_id := none, geom := (),
               distance_meters := 5000, elevation_gain := 0 },
             { user_id := 2, season_id := 1, strava_id := none, geom := (),
               distance_meters := 5000, elevation_gain := 0 }],
    territories := [], podiums := [] }

/-- The longitude offset (in degrees) of the C1 counterexample: chosen so
that `radians C1d = 60 / 6371000`, i.e. the two points sit 60 model-metres
apart along the latitude-60 parallel as the swapped formula measures them. -/
noncomputable def C1d : ℝ := 10800 / (6371000 * Real.pi)

/-- The C1 failing input: three points on the latitude-60 parallel, the
endpoints `C1d` degrees of longitude apart (a true great-circle gap of
about 30 m, under the 50 m loop threshold). -/
noncomputable def C1pts : List LatLng := [⟨60, 0⟩, ⟨60, C1d / 2⟩, ⟨60, C1d⟩]

/-- The `user_runs` row a direct submission inserts (season resolved to
`sid`): geometry from the (lng, lat) WKT points, distance from the engine,
no strava_id, elevation 0. -/
def directRunRow {Geom : Type} (E : GeoEngine Geom) (run : RunCreate)
    (sid : Nat) : RunRow Geom :=
  { user_id := run.user_id, season_id := sid, strava_id := none,
    geom := E.toLine (run_wkt_points run.points),
    distance_meters := E.length (E.toLine (run_wkt_points run.points)),
    elevation_gain := 0 }

/-! ## Claim theorems -/

/-- C9: a direct submission with fewer than 3 points is rejected with a 400
validation error before any store access, and no Run row is persisted: the
returned store is the unchanged input store. -/
theorem C9_short_track_rejected {Geom : Type} (E : GeoEngine Geom)
    (run : RunCreate) (st : Store Geom) (today : Int)
    (h : run.points.length < 3) :
    create_run E run st today = (Except.error 400, st) := by
  unfold create_run
  rw [if_pos h]

/-- C9 witness: the 2-point submission of the spec's scenario, against the
empty store. -/
theorem C9_short_track_rejected_witness :
    create_run unitEngine runTwo stEmpty 7 = (Except.error 400, stEmpty) :=
  C9_short_track_rejected unitEngine runTwo stEmpty 7 (by decide)

/-- C3: when no season contains the current date, direct ingestion fails
terminally (HTTP 400) with the store unchanged — no run row, no territory
change; and, in general, every failing `create_run` leaves the store
exactly as it was, while the success path commits the run insert and the
conditional territory merge together (they are parts of one returned
store), so the writes are one atomic unit. -/
theorem C3_no_active_season_terminal_and_atomic {Geom : Type}
    (E : GeoEngine Geom) (run : RunCreate) (st : Store Geom) (today : Int)
    (h : findSeason st.seasons today = none) :
    create_run E run st today = (Except.error 400, st) ∧
    ∀ (run2 : RunCreate) (st2 : Store Geom) (e : Nat),
      (create_run E run2 st2 today).1 = Except.error e →
      (create_run E run2 st2 today).2 = st2 := by
  constructor
  · unfold create_run
    split
    · rfl
    · rw [h]
  · intro run2 st2 e he
    by_cases h3 : run2.points.length < 3
    · simp [create_run, h3]
    · cases hs : findSeason st2.seasons today with
      | none => simp [create_run, h3, hs]
      | some s => simp [create_run, h3, hs] at he

/-- C3 witness: a 3-point submission against a store with no seasons at
all. -/
theorem C3_no_active_season_terminal_and_atomic_witness :
    create_run unitEngine runThree stEmpty 7 = (Except.error 400, stEmpty) ∧
    ∀ (run2 : RunCreate) (st2 : Store Unit) (e : Nat),
      (create_run unitEngine run2 st2 7).1 = Except.error e →
      (create_run unitEngine run2 st2 7).2 = st2 :=
  C3_no_active_season_terminal_and_atomic unitEngine runThree stEmpty 7 rfl

/-- C10: the leaderboard endpoint ignores its `season_id` parameter — any
two values give the identical result — and when no season contains the
current date the result is empty for every `season_id`. -/
theorem C10_leaderboard_ignores_season_param {Geom : Type} (type_ : String)
    (sid sid2 : Nat) (st : Store Geom) (today : Int) :
    get_leaderboard type_ sid st today = get_leaderboard type_ sid2 st today ∧
    (findSeason st.seasons today = none → get_leaderboard type_ sid st today = []) := by
  refine ⟨rfl, fun h => ?_⟩
  unfold get_leaderboard
  rw [h]

/-- C4: when the most recent Strava activity's id already matches a stored
Run of the same user, sync short-circuits to AlreadySynced without fetching
the coordinate stream (third component `false`) and returns the store
unchanged — in particular no second Run with that (user_id, strava_id) is
created. -/
theorem C4_duplicate_sync_short_circuits {Geom : Type} (E : GeoEngine Geom)
    (uid : Nat) (w : StravaWorld) (st : Store Geom) (today : Int)
    (tok : String) (act : StravaActivity) (rest : List StravaActivity)
    (htok : (get_valid_token_raw uid w st.users).1 = Except.ok (some tok))
    (hne : tok ≠ "")
    (hstatus : w.act_status = 200)
    (hacts : w.activities = act :: rest)
    (hdup : (st.runs.any fun r => r.strava_id == some act.id && r.user_id == uid) = true) :
    sync_last_activity_raw E uid w st today =
      (SyncOutcome.alreadySynced, st, false) := by
  unfold sync_last_activity_raw
  rcases hgv : get_valid_token_raw uid w st.users with ⟨res, users1, nc⟩
  rw [hgv] at htok
  replace htok : res = Except.ok (some tok) := htok
  subst htok
  simp [hne, hstatus, hacts, hdup]

/-- C4 witness: activity 777 is already stored for user 1, so the second
sync returns AlreadySynced, fetches no stream, and leaves the store as it
was. -/
theorem C4_duplicate_sync_short_circuits_witness :
    sync_last_activity_raw unitEngine 1 worldSync stDup 5 =
      (SyncOutcome.alreadySynced, stDup, false) :=
  C4_duplicate_sync_short_circuits unitEngine 1 worldSync stDup 5 "tok"
    { id := "777", name := "Morning Run", total_elevation_gain := 3 } []
    rfl (by decide) rfl rfl (by decide)

/-- C5: for a user with a stored credential and a real clock
(`0 ≤ now`), `get_valid_token_raw` returns the stored access token with no
token-endpoint call and no state change whenever `now < expires_at - 60`;
otherwise it performs the refresh exchange (endpoint-call flag `true`),
and on a non-200 status it fails leaving the users table untouched, while
on a 200 status it replaces access token, refresh token and expiry
together in the user's row and returns the new access token. -/
theorem C5_token_lifecycle (uid : Nat) (w : StravaWorld)
    (users : List UserRow) (u : UserRow) (a r : String) (e : Int)
    (hu : users.find? (fun x => x.id == uid) = some u)
    (ha : u.strava_access_token = some a)
    (_hr : u.strava_refresh_token = some r)
    (he : u.strava_token_expires_at = some e)
    (hnow : 0 ≤ w.now) :
    (w.now < e - 60 →
      get_valid_token_raw uid w users = (Except.ok (some a), users, false)) ∧
    (e - 60 ≤ w.now →
      (w.refresh.status ≠ 200 →
        get_valid_token_raw uid w users = (Except.error 400, users, true)) ∧
      (w.refresh.status = 200 →
        get_valid_token_raw uid w users =
          (Except.ok (some w.refresh.access_token),
           users.map fun x =>
             if x.id == uid then
               { x with strava_access_token := some w.refresh.access_token,
                        strava_refresh_token := some w.refresh.refresh_token,
                        strava_token_expires_at := some w.refresh.expires_at }
             else x,
           true))) := by
  constructor
  · intro hlt
    have hez : e ≠ 0 := by omega
    unfold get_valid_token_raw
    rw [hu]
    simp [he, hez, hlt, ha]
  · intro hge
    have hfresh : ¬ (e ≠ 0 ∧ w.now < e - 60) := by omega
    constructor
    · intro hbad
      unfold get_valid_token_raw
      rw [hu]
      simp [he, hfresh, hbad]
    · intro hok
      unfold get_valid_token_raw
      rw [hu]
      simp [he, hfresh, hok]

/-- C5 witness: user ana with expiry 1,000,000 at now = 0 (fresh-token
branch live, refresh branch vacuous). -/
theorem C5_token_lifecycle_witness :
    (worldSync.now < 1000000 - 60 →
      get_valid_token_raw 1 worldSync [userAna] =
        (Except.ok (some "tok"), [userAna], false)) ∧
    (1000000 - 60 ≤ worldSync.now →
      (worldSync.refresh.status ≠ 200 →
        get_valid_token_raw 1 worldSync [userAna] =
          (Except.error 400, [userAna], true)) ∧
      (worldSync.refresh.status = 200 →
        get_valid_token_raw 1 worldSync [userAna] =
          (Except.ok (some worldSync.refresh.access_token),
           [userAna].map fun x =>
             if x.id == 1 then
               { x with strava_access_token := some worldSync.refresh.access_token,
                        strava_refresh_token := some worldSync.refresh.refresh_token,
                        strava_token_expires_at := some worldSync.refresh.expires_at }
             else x,
           true))) :=
  C5_token_lifecycle 1 worldSync [userAna] userAna "tok" "ref" 1000000
    rfl rfl rfl rfl (by decide)

/-- C2 (amended): for DIRECT ingestion, loop closure governs only the
territory-merge step — a successful `create_run` always appends exactly the
new run row, and updates territories precisely when the loop is closed —
but for SYNC-DERIVED ingestion the territory step never executes: a
successful sync appends a run row and always leaves territories untouched,
closed loop or not (the territory code of that endpoint is commented
out). -/
theorem C2_loop_gates_merge_amended {Geom : Type} (E : GeoEngine Geom)
    (run : RunCreate) (st : Store Geom) (today : Int) (season : Season)
    (uid : Nat) (w : StravaWorld)
    (hlen : ¬ run.points.length < 3)
    (hs : findSeason st.seasons today = some season) :
    create_run E run st today =
      (Except.ok (E.length (E.toLine (run_wkt_points run.points)), season.id),
       { st with
           runs := st.runs ++ [directRunRow E run season.id],
           territories :=
             if is_closed_loop run.points then
               merge_territory E run.user_id season.id
                 (E.toLine (run_wkt_points run.points)) st.territories
             else st.territories }) ∧
    ∀ (d ev : ℚ) (st2 : Store Geom) (f : Bool),
      sync_last_activity_raw E uid w st today = (SyncOutcome.synced d ev, st2, f) →
      (∃ row, st2.runs = st.runs ++ [row]) ∧ st2.territories = st.territories := by
  constructor
  · unfold create_run
    rw [if_neg hlen, hs]
    rfl
  · intro d ev st2 f
    unfold sync_last_activity_raw
    rcases get_valid_token_raw uid w st.users with ⟨res, users1, nc⟩
    cases res with
    | error c => intro h; simp at h
    | ok token =>
      simp only []
      repeat' split
      all_goals intro h
      all_goals try (exfalso; simp at h; done)
      simp only [Prod.mk.injEq] at h
      obtain ⟨-, h2, -⟩ := h
      subst h2
      exact ⟨⟨_, rfl⟩, rfl⟩

/-- C2 witness: a closed 3-point direct submission against the one-season
store, and the sync conjunct instantiated at the same store and world. -/
theorem C2_loop_gates_merge_amended_witness :
    create_run unitEngine runClosed stSync 5 =
      (Except.ok (unitEngine.length (unitEngine.toLine (run_wkt_points runClosed.points)),
         seasonA.id),
       { stSync with
           runs := stSync.runs ++ [directRunRow unitEngine runClosed seasonA.id],
           territories :=
             if is_closed_loop runClosed.points then
               merge_territory unitEngine runClosed.user_id seasonA.id
                 (unitEngine.toLine (run_wkt_points runClosed.points)) stSync.territories
             else stSync.territories }) ∧
    ∀ (d ev : ℚ) (st2 : Store Unit) (f : Bool),
      sync_last_activity_raw unitEngine 1 worldSync stSync 5 =
        (SyncOutcome.synced d ev, st2, f) →
      (∃ row, st2.runs = stSync.runs ++ [row]) ∧
      st2.territories = stSync.territories :=
  C2_loop_gates_merge_amended unitEngine runClosed stSync 5 seasonA 1 worldSync
    (by decide) rfl

/-- C2 counterexample: the latest Strava activity is a closed loop
(endpoints identical, gap 0 m < 50 m), the sync ingests and persists it
(outcome Synced, one run row appended), yet the territories table stays
empty: contrary to the claim, a closed-loop sync-derived ingestion does not
merge any polygon into the user's season territory. -/
theorem C2_sync_closed_loop_never_merges :
    is_closed_loop runClosed.points ∧
    (sync_last_activity_raw unitEngine 1 worldSync stSync 5).1 =
      SyncOutcome.synced 0 3 ∧
    (sync_last_activity_raw unitEngine 1 worldSync stSync 5).2.1.runs.length = 1 ∧
    (sync_last_activity_raw unitEngine 1 worldSync stSync 5).2.1.territories = [] ∧
    stSync.territories = [] := by
  refine ⟨?_, rfl, rfl, rfl, rfl⟩
  show calculate_distance 0 0 0 0 < 50
  have h : calculate_distance 0 0 0 0 = 0 := by
    unfold calculate_distance
    norm_num [radians]
  rw [h]
  norm_num

/-- Helper: refreshing the stored area does not change which rows match the
(user, season) key. -/
theorem refreshArea_any {Geom : Type} (E : GeoEngine Geom) (uid sid : Nat)
    (ts : List (TerritoryRow Geom)) :
    (refreshArea E uid sid ts).any (territoryKey uid sid) =
      ts.any (territoryKey uid sid) := by
  induction ts with
  | nil => rfl
  | cons t ts ih =>
      simp only [refreshArea, List.map_cons, List.any_cons] at *
      rw [ih]
      congr 1
      by_cases h : territoryKey uid sid t = true
      · rw [if_pos h]
        simp [territoryKey]
      · rw [if_neg h]

/-- Helper: after the upsert a row matching the key always exists. -/
theorem upsertTerritory_has_row {Geom : Type} (E : GeoEngine Geom)
    (uid sid : Nat) (poly : Geom) (ts : List (TerritoryRow Geom)) :
    (upsertTerritory E uid sid poly ts).any (territoryKey uid sid) = true := by
  unfold upsertTerritory
  split
  · rename_i hex
    rw [List.any_eq_true] at hex ⊢
    obtain ⟨t, ht, hk⟩ := hex
    refine ⟨_, List.mem_map_of_mem _ ht, ?_⟩
    rw [if_pos hk]
    simp only [territoryKey] at hk ⊢
    exact hk
  · rw [List.any_eq_true]
    refine ⟨_, List.mem_append_right _ (List.mem_singleton.mpr rfl), ?_⟩
    simp [territoryKey]

/-- Helper: with a matching row present, the upsert takes the
conflict-update branch. -/
theorem upsertTerritory_of_any {Geom : Type} (E : GeoEngine Geom)
    (uid sid : Nat) (poly : Geom) (ts : List (TerritoryRow Geom))
    (h : ts.any (territoryKey uid sid) = true) :
    upsertTerritory E uid sid poly ts = ts.map fun t =>
      if territoryKey uid sid t then { t with geom := E.union t.geom poly }
      else t := by
  unfold upsertTerritory
  rw [if_pos h]

/-- Helper: in the upserted table, every row matching the key already
absorbs the new polygon, provided the engine's union is idempotent and
associative. -/
theorem upsertTerritory_key_geom {Geom : Type} (E : GeoEngine Geom)
    (hidem : ∀ g, E.union g g = g)
    (hassoc : ∀ g h k, E.union (E.union g h) k = E.union g (E.union h k))
    (uid sid : Nat) (poly : Geom) (ts : List (TerritoryRow Geom)) :
    ∀ t ∈ upsertTerritory E uid sid poly ts,
      territoryKey uid sid t = true → E.union t.geom poly = t.geom := by
  intro t ht hk
  unfold upsertTerritory at ht
  split at ht
  · obtain ⟨t0, ht0, rfl⟩ := List.mem_map.mp ht
    by_cases h0 : territoryKey uid sid t0 = true
    · simp only [if_pos h0]
      rw [hassoc, hidem]
    · rw [if_neg h0] at hk ⊢
      exact absurd hk h0
  · rename_i hno
    rcases List.mem_append.mp ht with hin | hnew
    · exact absurd (List.any_eq_true.mpr ⟨t, hin, hk⟩) (by simpa using hno)
    · rw [List.mem_singleton.mp hnew]
      exact hidem poly

/-- Helper: merging the same line twice produces the same territory table
as merging it once, when the engine's union is idempotent and
associative. -/
theorem merge_territory_idem {Geom : Type} (E : GeoEngine Geom)
    (hidem : ∀ g, E.union g g = g)
    (hassoc : ∀ g h k, E.union (E.union g h) k = E.union g (E.union h k))
    (uid sid : Nat) (line : Geom) (ts : List (TerritoryRow Geom)) :
    merge_territory E uid sid line (merge_territory E uid sid line ts) =
      merge_territory E uid sid line ts := by
  unfold merge_territory
  have hany : (refreshArea E uid sid (upsertTerritory E uid sid (E.closePolygon line) ts)).any
      (territoryKey uid sid) = true := by
    rw [refreshArea_any]
    exact upsertTerritory_has_row E uid sid (E.closePolygon line) ts
  rw [upsertTerritory_of_any E uid sid (E.closePolygon line) _ hany]
  unfold refreshArea
  rw [List.map_map, List.map_map]
  apply List.map_congr_left
  intro t ht
  by_cases hk : territoryKey uid sid t = true
  · have hg := upsertTerritory_key_geom E hidem hassoc uid sid
      (E.closePolygon line) ts t ht hk
    have hk1 : territoryKey uid sid
        { t with area_sq_meters := E.area t.geom } = true := by
      simpa [territoryKey] using hk
    have hk2 : territoryKey uid sid
        { t with area_sq_meters := E.area t.geom,
                 geom := E.union t.geom (E.closePolygon line) } = true := by
      simpa [territoryKey] using hk
    simp only [Function.comp, if_pos hk, if_pos hk1, if_pos hk2]
    simp [hg]
  · simp only [Function.comp, if_neg hk]

/-- C6: merging the same closed-loop polygon into a (user, season)
territory a second time leaves the stored `area_sq_meters` unchanged, for
every starting territory table, given the store's union operation is
idempotent (and associative, as ST_Union's documented set semantics
provide). -/
theorem C6_remerge_area_unchanged {Geom : Type} (E : GeoEngine Geom)
    (hidem : ∀ g, E.union g g = g)
    (hassoc : ∀ g h k, E.union (E.union g h) k = E.union g (E.union h k))
    (uid sid : Nat) (line : Geom) (ts : List (TerritoryRow Geom)) :
    territoryAreaOf
        (merge_territory E uid sid line (merge_territory E uid sid line ts))
        uid sid =
      territoryAreaOf (merge_territory E uid sid line ts) uid sid := by
  rw [merge_territory_idem E hidem hassoc uid sid line ts]

/-- C6 witness: the boolean engine (union = or) merging the same loop twice
into an empty territory table. -/
theorem C6_remerge_area_unchanged_witness :
    territoryAreaOf
        (merge_territory boolEngine 1 1 true (merge_territory boolEngine 1 1 true []))
        1 1 =
      territoryAreaOf (merge_territory boolEngine 1 1 true []) 1 1 :=
  C6_remerge_area_unchanged boolEngine (by decide) (by decide) 1 1 true []

/-- Helper: the grouping fold never shrinks a nonempty accumulator to
nil. -/
theorem distinctUsers_foldl_ne_nil {Geom : Type} :
    ∀ (l : List (RunRow Geom)) (acc : List Nat), acc ≠ [] →
      l.foldl (fun acc r =>
        if acc.contains r.user_id then acc else acc ++ [r.user_id]) acc ≠ [] := by
  intro l
  induction l with
  | nil => intro acc h; exact h
  | cons r l ih =>
      intro acc h
      rw [List.foldl_cons]
      apply ih
      by_cases hc : acc.contains r.user_id
      · rw [if_pos hc]; exact h
      · rw [if_neg hc]
        exact List.append_ne_nil_of_right_ne_nil acc (by simp)

/-- Helper: a nonempty run list has at least one distinct user. -/
theorem distinctUsers_ne_nil {Geom : Type} (runs : List (RunRow Geom))
    (h : runs ≠ []) : distinctUsers runs ≠ [] := by
  cases runs with
  | nil => exact absurd rfl h
  | cons r l =>
      unfold distinctUsers
      rw [List.foldl_cons]
      apply distinctUsers_foldl_ne_nil
      simp

/-- Helper: a season with a matching run has a nonempty filtered run
list. -/
theorem seasonRuns_ne_nil {Geom : Type} (runs : List (RunRow Geom)) (sid : Nat)
    (h : (runs.any fun r => r.season_id == sid) = true) :
    seasonRuns runs sid ≠ [] := by
  obtain ⟨r, hr, hk⟩ := List.any_eq_true.mp h
  intro hnil
  have hmem : r ∈ seasonRuns runs sid := List.mem_filter.mpr ⟨hr, hk⟩
  rw [hnil] at hmem
  exact absurd hmem (List.not_mem_nil r)

/-- Helper: a season with at least one run receives at least one podium
row per category. -/
theorem podiumTop3_ne_nil {Geom : Type} (runs : List (RunRow Geom)) (sid : Nat)
    (cat : String) (col : RunRow Geom → ℚ) (d : ℚ)
    (h : (runs.any fun r => r.season_id == sid) = true) :
    podiumTop3 runs sid cat col d ≠ [] := by
  rw [← List.length_pos_iff_ne_nil]
  unfold podiumTop3 sortTotalsDesc
  rw [List.length_map, List.length_take, List.length_insertionSort]
  have h1 : 0 < (groupTotals (seasonRuns runs sid) col).length := by
    rw [List.length_pos_iff_ne_nil]
    unfold groupTotals
    intro hmap
    exact absurd (List.map_eq_nil_iff.mp hmap)
      (distinctUsers_ne_nil _ (seasonRuns_ne_nil runs sid h))
  omega

/-- Helper: every podium row built for a season carries that season's id. -/
theorem podiumTop3_season_id {Geom : Type} (runs : List (RunRow Geom))
    (sid : Nat) (cat : String) (col : RunRow Geom → ℚ) (d : ℚ) :
    ∀ p ∈ podiumTop3 runs sid cat col d, p.season_id = sid := by
  intro p hp
  obtain ⟨x, _, rfl⟩ := List.mem_map.mp hp
  rfl

/-- Helper: with nothing pending, the closure job reports nothing and
writes nothing. -/
theorem process_of_pending_nil {Geom : Type} (st : Store Geom) (today : Int)
    (h : pendingClosures st today = []) :
    process_pending_season_closures st today = ([], st) := by
  unfold process_pending_season_closures
  rw [h]
  rfl

/-- Helper: deactivating a season keeps its id. -/
theorem deactivate_keeps_id (s : Season) (c : Prop) [Decidable c] :
    (if c then { s with is_active := false } else s).id = s.id := by
  split <;> rfl

/-- Helper: deactivating a season keeps its end_date. -/
theorem deactivate_keeps_end_date (s : Season) (c : Prop) [Decidable c] :
    (if c then { s with is_active := false } else s).end_date = s.end_date := by
  split <;> rfl

/-- C7 (amended): a season whose end_date has passed is selected for
closure if and only if it has no existing podium rows; and running the job
twice writes podium rows only on the first invocation — the second
invocation reports zero newly processed seasons and changes nothing —
PROVIDED every selected season has at least one run (the claim fails
without this proviso: a runless expired season receives zero podium rows
and is selected again). -/
theorem C7_closure_idempotent_amended {Geom : Type} (st : Store Geom)
    (today : Int)
    (h : ∀ s ∈ st.seasons, s.end_date < today →
         s.id ∉ podiumSeasonIds st.podiums →
         (st.runs.any fun r => r.season_id == s.id) = true) :
    (∀ s ∈ st.seasons,
        (s ∈ pendingClosures st today ↔
          s.end_date < today ∧ s.id ∉ podiumSeasonIds st.podiums)) ∧
    process_pending_season_closures
        ((process_pending_season_closures st today).2) today =
      ([], (process_pending_season_closures st today).2) := by
  constructor
  · intro s hs
    unfold pendingClosures
    rw [List.mem_filter]
    simp [hs]
  · by_cases hp : pendingClosures st today = []
    · rw [process_of_pending_nil st today hp]
      exact process_of_pending_nil st today hp
    · have hstep : process_pending_season_closures st today =
          ((pendingClosures st today).map fun s => s.name,
           { st with
               podiums := st.podiums ++
                 ((pendingClosures st today).map fun s =>
                   podiumTop3 st.runs s.id "distance"
                     (fun r => r.distance_meters) 1000 ++
                   podiumTop3 st.runs s.id "hight"
                     (fun r => r.elevation_gain) 1).flatten,
               seasons := st.seasons.map fun s =>
                 if s.id ∈ (pendingClosures st today).map (fun x => x.id) then
                   { s with is_active := false } else s }) := by
        unfold process_pending_season_closures
        rw [if_neg (by simp [List.isEmpty_iff, hp])]
      rw [hstep]
      apply process_of_pending_nil
      unfold pendingClosures
      rw [List.filter_eq_nil_iff]
      intro s' hs'
      simp only [decide_eq_true_eq]
      obtain ⟨s, hsmem, rfl⟩ := List.mem_map.mp hs'
      intro hpair
      obtain ⟨hlt, hnotin⟩ := hpair
      rw [deactivate_keeps_end_date] at hlt
      rw [deactivate_keeps_id] at hnotin
      by_cases hin : s.id ∈ podiumSeasonIds st.podiums
      · apply hnotin
        unfold podiumSeasonIds at hin ⊢
        rw [List.map_append]
        exact List.mem_append_left _ hin
      · have hpend : s ∈ pendingClosures st today :=
          List.mem_filter.mpr ⟨hsmem, by simp [hlt, hin]⟩
        have hrun := h s hsmem hlt hin
        have hne3 := podiumTop3_ne_nil st.runs s.id "distance"
          (fun r => r.distance_meters) 1000 hrun
        obtain ⟨p, hpmem⟩ := List.exists_mem_of_ne_nil _ hne3
        apply hnotin
        unfold podiumSeasonIds
        refine List.mem_map.mpr ⟨p, ?_,
          podiumTop3_season_id st.runs s.id "distance"
            (fun r => r.distance_meters) 1000 p hpmem⟩
        apply List.mem_append_right
        rw [List.mem_flatten]
        exact ⟨_, List.mem_map_of_mem _ hpend, List.mem_append_left _ hpmem⟩

/-- C7 witness: an expired season with one run — the second invocation
reports zero seasons. -/
theorem C7_closure_idempotent_amended_witness :
    (∀ s ∈ stOneRun.seasons,
        (s ∈ pendingClosures stOneRun 20 ↔
          s.end_date < 20 ∧ s.id ∉ podiumSeasonIds stOneRun.podiums)) ∧
    process_pending_season_closures
        ((process_pending_season_closures stOneRun 20).2) 20 =
      ([], (process_pending_season_closures stOneRun 20).2) :=
  C7_closure_idempotent_amended stOneRun 20 (by decide)

/-- C7 counterexample: a season that ended (day 10 < day 20) with no runs
at all is "closed" by the first invocation (reported by name) but receives
zero podium rows, so the second invocation selects and reports it again —
not zero seasons as the claim states. -/
theorem C7_runless_season_reprocessed :
    (process_pending_season_closures
        ((process_pending_season_closures stNoRuns 20).2) 20).1 =
      ["Temporada 1"] ∧
    ((process_pending_season_closures stNoRuns 20).2).podiums = [] := by
  constructor <;> rfl

/-- Helper: Python's display rounding is monotone. -/
theorem round2_mono {x y : ℚ} (h : x ≤ y) : round2 x ≤ round2 y := by
  unfold round2
  have h1 : (round (x * 100) : ℤ) ≤ round (y * 100) := by
    rw [round_eq, round_eq]
    exact Int.floor_le_floor (by linarith)
  have h2 : ((round (x * 100) : ℤ) : ℚ) ≤ ((round (y * 100) : ℤ) : ℚ) := by
    exact_mod_cast h1
  linarith

/-- Helper: the enumeration loop keeps the row count. -/
theorem lb_entries_length (d : ℚ) (l : List AggRow) :
    ∀ i, (lb_entries d i l).length = l.length := by
  induction l with
  | nil => intro i; rfl
  | cons x xs ih => intro i; simp [lb_entries, ih]

/-- Helper: the enumeration loop assigns rank `start + position + 1`. -/
theorem lb_entries_rank (d : ℚ) (l : List AggRow) :
    ∀ (i j : Nat) (hj : j < (lb_entries d i l).length),
      ((lb_entries d i l).get ⟨j, hj⟩).rank = i + j + 1 := by
  induction l with
  | nil => intro i j hj; simp [lb_entries] at hj
  | cons x xs ih =>
      intro i j hj
      cases j with
      | zero => rfl
      | succ j =>
          have hj2 : j < (lb_entries d (i + 1) xs).length := by
            simpa [lb_entries] using hj
          have := ih (i + 1) j hj2
          simpa [lb_entries, Nat.add_assoc, Nat.add_comm, Nat.add_left_comm] using this

/-- Helper: on rows sorted by descending total, the produced values are
non-increasing (positive divisor; rounding and division are monotone). -/
theorem lb_entries_chain (d : ℚ) (hd : 0 < d) :
    ∀ (l : List AggRow),
      List.Sorted (fun a b : AggRow => b.total ≤ a.total) l →
      ∀ i, List.Chain' (fun x y : LeaderboardEntry => y.value ≤ x.value)
        (lb_entries d i l) := by
  intro l
  induction l with
  | nil => intro _ i; simp [lb_entries]
  | cons x xs ih =>
      intro hs i
      rw [List.sorted_cons] at hs
      obtain ⟨hx, hxs⟩ := hs
      cases xs with
      | nil => simp [lb_entries]
      | cons y ys =>
          simp only [lb_entries]
          rw [List.chain'_cons]
          constructor
          · have hty : y.total ≤ x.total := hx y (List.mem_cons_self y ys)
            exact round2_mono (div_le_div_of_nonneg_right hty hd.le)
          · exact ih hxs (i + 1)

/-- Helper: shape of one metric's ranked list: at most 30 rows, rank =
position + 1, values non-increasing. -/
theorem rankList_props {Geom : Type} (st : Store Geom) (sid : Nat)
    (col : RunRow Geom → ℚ) (d : ℚ) (hd : 0 < d) :
    (rankList st sid col d).length ≤ 30 ∧
    (∀ j (hj : j < (rankList st sid col d).length),
      ((rankList st sid col d).get ⟨j, hj⟩).rank = j + 1) ∧
    List.Chain' (fun x y : LeaderboardEntry => y.value ≤ x.value)
      (rankList st sid col d) := by
  refine ⟨?_, ?_, ?_⟩
  · unfold rankList
    rw [lb_entries_length]
    simp [List.length_take]
  · intro j hj
    have := lb_entries_rank d ((sortAggDesc (lb_rows st sid col)).take 30) 0 j hj
    simpa [rankList] using this
  · unfold rankList
    apply lb_entries_chain d hd
    have hsorted : List.Sorted (fun a b : AggRow => b.total ≤ a.total)
        (sortAggDesc (lb_rows st sid col)) := by
      unfold sortAggDesc
      haveI : IsTotal AggRow (fun a b : AggRow => b.total ≤ a.total) :=
        ⟨fun a b => le_total b.total a.total⟩
      haveI : IsTrans AggRow (fun a b : AggRow => b.total ≤ a.total) :=
        ⟨fun a b c hab hbc => le_trans hbc hab⟩
      exact List.sorted_insertionSort _ _
    exact hsorted.sublist (List.take_sublist 30 _)

/-- C8 (amended): for every season and metric the leaderboard result has
at most 30 entries, each entry's rank is the dense 1-based list position,
and the values are sorted in non-increasing order — NON-strictly: two users
with equal totals produce equal values in adjacent positions (the spec
itself notes ties are not collapsed), so strict descent cannot hold. -/
theorem C8_leaderboard_shape_amended {Geom : Type} (type_ : String)
    (sid : Nat) (st : Store Geom) (today : Int) :
    (get_leaderboard type_ sid st today).length ≤ 30 ∧
    (∀ j (hj : j < (get_leaderboard type_ sid st today).length),
      ((get_leaderboard type_ sid st today).get ⟨j, hj⟩).rank = j + 1) ∧
    List.Chain' (fun x y : LeaderboardEntry => y.value ≤ x.value)
      (get_leaderboard type_ sid st today) := by
  unfold get_leaderboard
  cases findSeason st.seasons today with
  | none => exact ⟨by simp, by intro j hj; simp at hj, by simp⟩
  | some season =>
      dsimp only
      by_cases h1 : (type_ == "distance") = true
      · rw [if_pos h1]
        exact rankList_props st season.id _ 1000 (by norm_num)
      · rw [if_neg h1]
        by_cases h2 : (type_ == "hight") = true
        · rw [if_pos h2]
          exact rankList_props st season.id _ 1 one_pos
        · rw [if_neg h2]
          exact ⟨by simp, by intro j hj; simp at hj, by simp⟩

/-- C8 counterexample: two users tied at 5000 m both show value 5 km, so
the returned list is NOT sorted strictly descending by value, contrary to
the claim. -/
theorem C8_tie_breaks_strict_descent :
    ¬ List.Chain' (fun x y : LeaderboardEntry => y.value < x.value)
        (get_leaderboard "distance" 1 stTied 5) := by
  have hev : get_leaderboard "distance" 1 stTied 5 =
      [{ rank := 1, user_id := 1, username := "ana", value := 5 },
       { rank := 2, user_id := 2, username := "bob", value := 5 }] := by
    norm_num [get_leaderboard, findSeason, stTied, seasonA, rankList, sortAggDesc,
      lb_rows, distinctUsers, seasonRuns, sumBy, List.insertionSort,
      List.orderedInsert, lb_entries, round2, round_eq]
  rw [hev]
  simp

/-- C1 (code bug): at the failing input `C1pts` the code classifies the
track as OPEN — the module-level redefinition of `calculate_distance`
(line 431) takes `(lon1, lat1, lon2, lat2)` while `create_run` (line 286)
still passes `(lat, lng, lat, lng)`, so the code evaluates the haversine
formula with latitude and longitude swapped and measures this endpoint gap
as exactly 60 m — yet the true haversine great-circle distance between the
first and last point (spherical Earth, radius 6,371,000 m) is below 50 m
(at most 45 m; about 30 m).  The claim's biconditional "closed iff
haversine(first, last) < 50" therefore fails on the code. -/
theorem C1_swapped_haversine_diverges :
    ¬ is_closed_loop C1pts ∧
    haversine_spec C1pts.headI (C1pts.getLastD default) < 50 := by
  have hpi3 := Real.pi_gt_three
  have hpipos := Real.pi_pos
  have hu : radians C1d = 60 / 6371000 := by
    unfold radians C1d
    field_simp
    ring
  have hr0 : radians 0 = 0 := by unfold radians; ring
  have hsinpos : 0 < Real.sin (60 / 6371000 / 2) := by
    apply Real.sin_pos_of_pos_of_lt_pi
    · norm_num
    · have h3 : (60:ℝ) / 6371000 / 2 < 3 := by norm_num
      linarith
  have hgap : distance_gap C1pts = 60 := by
    show calculate_distance 60 0 60 C1d = 60
    unfold calculate_distance
    dsimp only
    rw [hu, hr0, sub_self]
    rw [show ((0:ℝ) / 2) = 0 by norm_num, Real.sin_zero]
    rw [show ((60:ℝ) / 6371000 - 0) = 60 / 6371000 by ring]
    rw [show ((0:ℝ) ^ 2) = 0 by ring]
    rw [mul_zero, add_zero]
    rw [Real.sqrt_sq hsinpos.le]
    rw [Real.arcsin_sin (by linarith) (by nlinarith)]
    norm_num
  constructor
  · unfold is_closed_loop
    rw [hgap]
    norm_num
  · show haversine_spec ⟨60, 0⟩ ⟨60, C1d⟩ < 50
    unfold haversine_spec
    dsimp only
    rw [hu, hr0, sub_self, sub_zero]
    rw [show radians 60 = Real.pi / 3 by unfold radians; ring]
    rw [Real.cos_pi_div_three]
    rw [show ((0:ℝ) / 2) = 0 by norm_num, Real.sin_zero]
    rw [show ((0:ℝ) ^ 2) = 0 by ring, zero_add]
    rw [show (1:ℝ) / 2 * (1 / 2) * Real.sin (60 / 6371000 / 2) ^ 2 =
      (Real.sin (60 / 6371000 / 2) / 2) ^ 2 by ring]
    rw [Real.sqrt_sq (by linarith)]
    have hs1 : Real.sin (60 / 6371000 / 2) < 60 / 6371000 / 2 :=
      Real.sin_lt (by norm_num)
    have hcube : 3 * (60 / 6371000) / 8 - (3 * (60 / 6371000) / 8) ^ 3 / 4 <
        Real.sin (3 * ((60:ℝ) / 6371000) / 8) :=
      Real.sin_gt_sub_cube (by norm_num) (by norm_num)
    have hle : Real.sin (60 / 6371000 / 2) / 2 ≤
        Real.sin (3 * ((60:ℝ) / 6371000) / 8) := by
      nlinarith
    have harc : Real.arcsin (Real.sin (60 / 6371000 / 2) / 2) ≤
        3 * ((60:ℝ) / 6371000) / 8 := by
      have h1 := Real.monotone_arcsin hle
      have h2 : Real.arcsin (Real.sin (3 * ((60:ℝ) / 6371000) / 8)) =
          3 * ((60:ℝ) / 6371000) / 8 := by
        apply Real.arcsin_sin
        · linarith
        · nlinarith
      linarith [h1, h2.le, h2.ge]
    nlinarith [harc]
